import Mathlib

/-!
# Verification of the OSQP core (`src/osqp.c`)

A shallow embedding of the OSQP API functions `osqp_setup`, `osqp_solve`,
`osqp_update_lin_cost`, `osqp_update_lower_bound` and `osqp_update_upper_bound`
from `src/osqp.c`, together with theorems checking the natural-language
specification against them.

Modelling conventions:
* `c_float` is modelled by `ℚ` (exact arithmetic stands in for floating point;
  the claims under study are about control flow, data flow and order
  comparisons, not rounding).
* `c_int` results are modelled by `ℤ`; C truth tests on flag-like settings
  fields are modelled by `Bool` (`polishing`, `warm_start`, `verbose`) or, for
  the `scaling` field which is an iteration count, by `Nat` with truthiness
  `≠ 0`.
* Dense vectors are `List ℚ`; the sparse CSC matrices are modelled densely as
  `List (List ℚ)` since no claim inspects the storage format.
* External collaborators that `osqp.c` calls but whose code is not part of
  this repository's core (the ADMM step functions, the validators, the KKT
  solver, the scaler, the polisher) are either universally-quantified
  parameters gathered in an `ExtFns` record, or, when the specification pins
  their behaviour down exactly (trivial vector operations, cold start, the
  status string), concrete definitions modelled from the spec.
* The free global `settings` symbol that `osqp_update_lin_cost`,
  `osqp_update_lower_bound` and `osqp_update_upper_bound` read (instead of
  `work->settings`) is modelled as an explicit extra parameter `gset`.
* A C null-pointer dereference is modelled by a dedicated `crash` result
  constructor: the behaviour past that point is undefined and unreachable.
-/

/-- Dense vector of `c_float` entries. -/
abbrev Vec := List ℚ

/-- Dense stand-in for a CSC sparse matrix (row-major list of rows). -/
abbrev Mat := List (List ℚ)

/-- `vec_copy(a, n)`: allocate a fresh vector holding the first `n` entries of
`a`.  Modelled from the spec: dense-vector collaborator, "copy". -/
def vec_copy (a : Vec) (n : Nat) : Vec := a.take n

/-- `prea_vec_copy(a, b, n)`: copy the first `n` entries of `a` into the
preallocated destination `b`.  Modelled from the spec: dense-vector
collaborator, "copy into pre-allocated destination".  The result is the new
contents of the destination. -/
def prea_vec_copy (a : Vec) (n : Nat) : Vec := a.take n

/-- `vec_ew_prod(a, b, n)`: elementwise product, stored in `b`.  Modelled from
the spec: dense-vector collaborator, "elementwise product". -/
def vec_ew_prod (a b : Vec) : Vec := List.zipWith (· * ·) a b

/-- `csc_to_triu(M)`: upper-triangular part of a square matrix.  Modelled from
the spec: "Canonicalizes P to upper triangle". -/
def csc_to_triu (M : Mat) : Mat :=
  M.mapIdx fun i row => row.mapIdx fun j v => if j < i then 0 else v

/-- `copy_csc_mat(M)`: deep copy of a sparse matrix.  Modelled from the spec:
sparse-matrix collaborator, "deep-copy". -/
def copy_csc_mat (M : Mat) : Mat := M

/-- Problem data (`Data` struct): dimensions, cost and constraint data. -/
structure Data where
  n : Nat
  m : Nat
  P : Mat
  q : Vec
  A : Mat
  lA : Vec
  uA : Vec
deriving DecidableEq

/-- Solver settings (`Settings` struct); only the fields `osqp.c` reads. -/
structure Settings where
  rho : ℚ
  sigma : ℚ
  alpha : ℚ
  max_iter : Nat
  eps_abs : ℚ
  eps_rel : ℚ
  scaling : Nat
  polishing : Bool
  warm_start : Bool
  verbose : Bool
deriving DecidableEq

/-- `copy_settings(s)`: deep copy of the settings.  Modelled from the spec:
the workspace owns a copy of the caller's settings. -/
def copy_settings (s : Settings) : Settings := s

/-- Scaling diagonals (`Scaling` struct): `D`, `Dinv` length `n`; `E`, `Einv`
length `m`; all strictly positive when produced by the scaler. -/
structure ScalingS where
  D : Vec
  Dinv : Vec
  E : Vec
  Einv : Vec
deriving DecidableEq

/-- Solver status values (`status_val`), a closed set per the spec. -/
inductive StatusVal where
  | UNSOLVED
  | SOLVED
  | MAX_ITER_REACHED
deriving DecidableEq

/-- The human-readable string for each status value.  Modelled from the spec:
`update_status_string` keeps `info->status` in sync with `info->status_val`. -/
def statusString : StatusVal → String
  | StatusVal.UNSOLVED => "Unsolved"
  | StatusVal.SOLVED => "Solved"
  | StatusVal.MAX_ITER_REACHED => "Maximum Iterations Reached"

/-- Solver information (`Info` struct). -/
structure Info where
  iter : Nat
  status_val : StatusVal
  status : String
  obj_val : ℚ
  pri_res : ℚ
  dua_res : ℚ
deriving DecidableEq

/-- `update_status_string(info)`: refresh the status string from the status
value.  Modelled from the spec: status strings always match `status_val`. -/
def update_status_string (i : Info) : Info :=
  { i with status := statusString i.status_val }

/-- Handle of the abstract KKT linear-system solver (`Priv` struct).  Modelled
from the spec: `init_priv(P, A, settings, polish_flag)` builds and factorizes
the coefficient matrix from exactly these inputs, so the handle is modelled as
a record of them. -/
structure Priv where
  P : Mat
  A : Mat
  settings : Settings
  polish_flag : Bool
deriving DecidableEq

/-- Polish scratch space (`Polish` struct).  The buffers are `c_malloc`ed
(uninitialized) in C; their contents before `polish` runs are irrelevant to
every claim, so they are modelled as zero-filled of the right length. -/
structure PolishWs where
  ind_lAct : List ℤ
  ind_uAct : List ℤ
  A2Ared : List ℤ
  x : Vec
  Ax : Vec
deriving DecidableEq

/-- Published solution (`Solution` struct). -/
structure Solution where
  x : Vec
  lambda : Vec
deriving DecidableEq

/-- The solver workspace (`Work` struct): the fields `osqp.c` manipulates. -/
structure Work where
  data : Data
  x : Vec
  z : Vec
  u : Vec
  z_prev : Vec
  dua_res_ws_n : Vec
  dua_res_ws_m : Vec
  settings : Settings
  scaling : Option ScalingS
  priv : Priv
  pol : PolishWs
  solution : Solution
  info : Info
deriving DecidableEq

/-- Result of an `osqp_update_*` call: either the mutated workspace together
with the returned `c_int` flag, or a crash (the C code dereferences
`work->scaling` while it is `OSQP_NULL`). -/
inductive UpdResult where
  | crash
  | ret (w : Work) (flag : ℤ)
deriving DecidableEq

/-- The bound-consistency scan of `osqp_update_lower_bound`:
`for (i=0; i<m; i++) if (lA[i] > uA[i]) return 1; return 0`. -/
def check_lower_bound (lA uA : Vec) (m : Nat) : ℤ :=
  if (List.range m).any (fun i => decide (uA.getD i 0 < lA.getD i 0)) then 1 else 0

/-- The bound-consistency scan of `osqp_update_upper_bound`:
`for (i=0; i<m; i++) if (uA[i] < lA[i]) return 1; return 0`. -/
def check_upper_bound (lA uA : Vec) (m : Nat) : ℤ :=
  if (List.range m).any (fun i => decide (uA.getD i 0 < lA.getD i 0)) then 1 else 0

/-- `osqp_update_lin_cost(work, q_new)` from `src/osqp.c`.  `gset` is the free
global `settings` symbol the C code reads in `if (settings->scaling)` — note
it is NOT `work->settings`. -/
def osqp_update_lin_cost (gset : Settings) (w : Work) (q_new : Vec) : UpdResult :=
  let q1 := prea_vec_copy q_new w.data.n
  if gset.scaling ≠ 0 then
    match w.scaling with
    | none => UpdResult.crash
    | some sc =>
        UpdResult.ret { w with data := { w.data with q := vec_ew_prod sc.D q1 } } 0
  else
    UpdResult.ret { w with data := { w.data with q := q1 } } 0

/-- `osqp_update_lower_bound(work, lA_new)` from `src/osqp.c`: copy the new
lower bound over `work->data->lA`, apply the `E` scaling when the free global
`settings->scaling` is truthy, then scan for `lA[i] > uA[i]`. -/
def osqp_update_lower_bound (gset : Settings) (w : Work) (lA_new : Vec) : UpdResult :=
  let lA1 := prea_vec_copy lA_new w.data.m
  if gset.scaling ≠ 0 then
    match w.scaling with
    | none => UpdResult.crash
    | some sc =>
        let lA2 := vec_ew_prod sc.E lA1
        let w' := { w with data := { w.data with lA := lA2 } }
        UpdResult.ret w' (check_lower_bound w'.data.lA w'.data.uA w'.data.m)
  else
    let w' := { w with data := { w.data with lA := lA1 } }
    UpdResult.ret w' (check_lower_bound w'.data.lA w'.data.uA w'.data.m)

/-- `osqp_update_upper_bound(work, uA_new)` from `src/osqp.c`: copy the new
upper bound over `work->data->uA`, apply the `E` scaling when the free global
`settings->scaling` is truthy, then scan for `uA[i] < lA[i]`. -/
def osqp_update_upper_bound (gset : Settings) (w : Work) (uA_new : Vec) : UpdResult :=
  let uA1 := prea_vec_copy uA_new w.data.m
  if gset.scaling ≠ 0 then
    match w.scaling with
    | none => UpdResult.crash
    | some sc =>
        let uA2 := vec_ew_prod sc.E uA1
        let w' := { w with data := { w.data with uA := uA2 } }
        UpdResult.ret w' (check_upper_bound w'.data.lA w'.data.uA w'.data.m)
  else
    let w' := { w with data := { w.data with uA := uA1 } }
    UpdResult.ret w' (check_upper_bound w'.data.lA w'.data.uA w'.data.m)

/-- The external functions `osqp.c` links against (validators, scaler, KKT
solver, ADMM step kernels, residual check, polisher, solution publisher).
Their code is outside this file's scope, so the theorems quantify over any
implementation; the types record exactly which part of the workspace each one
is allowed to write, mirroring the C functions' effects. -/
structure ExtFns where
  validate_data : Data → Bool
  validate_settings : Settings → Bool
  scale_data : Settings → Data → Data × ScalingS
  init_priv : Mat → Mat → Settings → Bool → Priv
  compute_rhs : Work → Vec
  solve_lin_sys : Settings → Priv → Vec → Vec
  update_x : Work → Vec
  project_x : Work → Vec
  update_u : Work → Vec
  update_info : Work → Nat → Info
  residuals_check : Work → Bool
  polish : Work → Work
  store_solution : Work → Solution

/-- Result of `osqp_setup`: the C function returns `OSQP_NULL` on validation
failure, and on a failed workspace allocation it only prints an error and then
dereferences the null `work` pointer — modelled as `crash`. -/
inductive SetupResult where
  | null
  | crash
  | ok (w : Work)

/-- Whether a setup produced a workspace. -/
def SetupResult.isOk : SetupResult → Prop
  | SetupResult.ok _ => True
  | _ => False

/-- `osqp_setup(data, settings)` from `src/osqp.c`.  `alloc_ok` models whether
the `c_calloc(1, sizeof(Work))` for the workspace succeeds; the later interior
allocations are not modelled as fallible since no claim concerns them.
Faithful to the source order: validate data, validate settings, allocate,
copy data (P canonicalized to upper triangle), zero-initialize `x`, `z`, `u`,
copy settings, force polishing off when `m == 0`, scale if
`settings->scaling`, build the KKT handle, allocate polish scratch, solution
and info, set status to `UNSOLVED`. -/
def osqp_setup (ext : ExtFns) (alloc_ok : Bool) (data : Data) (settings : Settings) :
    SetupResult :=
  if ext.validate_data data then SetupResult.null
  else if ext.validate_settings settings then SetupResult.null
  else if !alloc_ok then SetupResult.crash
  else
    let d : Data :=
      { n := data.n
        m := data.m
        P := csc_to_triu data.P
        q := vec_copy data.q data.n
        A := copy_csc_mat data.A
        lA := vec_copy data.lA data.m
        uA := vec_copy data.uA data.m }
    let x := List.replicate (d.n + d.m) (0 : ℚ)
    let z := List.replicate (d.n + d.m) (0 : ℚ)
    let u := List.replicate d.m (0 : ℚ)
    let settings1 := copy_settings settings
    let settings2 := if d.m = 0 then { settings1 with polishing := false } else settings1
    let scaled : Data × Option ScalingS :=
      if settings.scaling ≠ 0 then
        let p := ext.scale_data settings2 d
        (p.1, some p.2)
      else (d, none)
    let priv := ext.init_priv scaled.1.P scaled.1.A settings2 false
    let pol : PolishWs :=
      { ind_lAct := List.replicate d.m 0
        ind_uAct := List.replicate d.m 0
        A2Ared := List.replicate d.m 0
        x := List.replicate d.n 0
        Ax := List.replicate d.m 0 }
    let sol : Solution :=
      { x := List.replicate d.n 0, lambda := List.replicate d.m 0 }
    let info : Info :=
      update_status_string
        { iter := 0
          status_val := StatusVal.UNSOLVED
          status := ""
          obj_val := 0
          pri_res := 0
          dua_res := 0 }
    SetupResult.ok
      { data := scaled.1
        x := x
        z := z
        u := u
        z_prev := List.replicate (d.n + d.m) 0
        dua_res_ws_n := List.replicate d.n 0
        dua_res_ws_m := List.replicate d.m 0
        settings := settings2
        scaling := scaled.2
        priv := priv
        pol := pol
        solution := sol
        info := info }

/-- `cold_start(work)`.  Modelled from the spec: "Cold start (when
`warm_start` is false at solve entry): x, z, u ← 0". -/
def cold_start (w : Work) : Work :=
  { w with
    x := List.replicate (w.data.n + w.data.m) 0
    z := List.replicate (w.data.n + w.data.m) 0
    u := List.replicate w.data.m 0 }

/-- One observable step of the ADMM loop body of `osqp_solve`, in source
order.  The trace of these events records which operations an execution
performs and in which order. -/
inductive Event where
  | CopyZPrev
  | ComputeRhs
  | SolveLinSys
  | UpdateX
  | ProjectZ
  | UpdateU
  | UpdateInfo
  | ResidualsCheck
deriving DecidableEq

/-- The fixed sequence of steps one ADMM iteration executes (`osqp.c` lines
166–198). -/
def iterEvents : List Event :=
  [Event.CopyZPrev, Event.ComputeRhs, Event.SolveLinSys, Event.UpdateX,
   Event.ProjectZ, Event.UpdateU, Event.UpdateInfo, Event.ResidualsCheck]

/-- The body of one ADMM iteration of `osqp_solve` (given the loop counter
`iter`), faithful to the source order: `prea_vec_copy(z, z_prev, n+m)`;
`compute_rhs` (writes the RHS into `work->x`); `solve_lin_sys` (solves in
place in `work->x`); `update_x`; `project_x` (writes `work->z`); `update_u`;
`update_info(work, iter, 0)`. -/
def admm_iteration (ext : ExtFns) (iter : Nat) (w : Work) : Work :=
  let w1 := { w with z_prev := prea_vec_copy w.z (w.data.n + w.data.m) }
  let w2 := { w1 with x := ext.compute_rhs w1 }
  let w3 := { w2 with x := ext.solve_lin_sys w2.settings w2.priv w2.x }
  let w4 := { w3 with x := ext.update_x w3 }
  let w5 := { w4 with z := ext.project_x w4 }
  let w6 := { w5 with u := ext.update_u w5 }
  { w6 with info := ext.update_info w6 iter }

/-- The workspace after `k` iterations of the ADMM body, the first one run
with loop counter `i`. -/
def stateAfterFrom (ext : ExtFns) (i : Nat) (w : Work) : Nat → Work
  | 0 => w
  | j + 1 => admm_iteration ext (i + j) (stateAfterFrom ext i w j)

/-- The ADMM loop of `osqp_solve` (`for (iter = 0; iter < max_iter; iter++)`)
with first loop-counter value `i` and `fuel` remaining iterations: run the
body, then `if (residuals_check(work)) break`.  Returns the final workspace,
the number of iterations performed, and the event trace. -/
def admm_loop (ext : ExtFns) : Nat → Nat → Work → Work × Nat × List Event
  | _, 0, w => (w, 0, [])
  | i, fuel + 1, w =>
    let w1 := admm_iteration ext i w
    if ext.residuals_check w1 then (w1, 1, iterEvents)
    else
      let r := admm_loop ext (i + 1) fuel w1
      (r.1, r.2.1 + 1, iterEvents ++ r.2.2)

/-- The initialization `osqp_solve` performs before the loop:
`if (!work->settings->warm_start) cold_start(work)`. -/
def solve_init (w : Work) : Work :=
  if !w.settings.warm_start then cold_start w else w

/-- The workspace state right after the ADMM loop and the
`update_status_string` call, i.e. at the point where `osqp_solve` evaluates
the polish condition (`osqp.c` line 216). -/
def solve_after_loop (ext : ExtFns) (w : Work) : Work :=
  let w0 := solve_init w
  let r := admm_loop ext 0 w0.settings.max_iter w0
  { r.1 with info := update_status_string r.1.info }

/-- What a call to `osqp_solve` produces: the mutated workspace, the returned
exitflag, the number of ADMM iterations performed, the loop's event trace,
and whether `polish` was invoked. -/
structure SolveResult where
  work : Work
  exitflag : ℤ
  iters : Nat
  trace : List Event
  polished : Bool

/-- `osqp_solve(work)` from `src/osqp.c`: optional cold start, the ADMM loop
up to `max_iter` iterations with early exit on `residuals_check`, the final
`update_status_string`, `polish` exactly when
`work->settings->polishing && work->info->status_val == OSQP_SOLVED`, then
`store_solution`; the returned exitflag is always 0. -/
def osqp_solve (ext : ExtFns) (w : Work) : SolveResult :=
  let w0 := solve_init w
  let r := admm_loop ext 0 w0.settings.max_iter w0
  let w2 := { r.1 with info := update_status_string r.1.info }
  let doPol := w2.settings.polishing && decide (w2.info.status_val = StatusVal.SOLVED)
  let w3 := if doPol then ext.polish w2 else w2
  let w4 := { w3 with solution := ext.store_solution w3 }
  { work := w4, exitflag := 0, iters := r.2.1, trace := r.2.2, polished := doPol }

theorem stateAfterFrom_succ_left (ext : ExtFns) (i : Nat) (w : Work) (j : Nat) :
    stateAfterFrom ext i w (j + 1) =
      stateAfterFrom ext (i + 1) (admm_iteration ext i w) j := by
  induction j with
  | zero => simp [stateAfterFrom]
  | succ j ih =>
    have harg : i + (j + 1) = (i + 1) + j := by omega
    calc stateAfterFrom ext i w (j + 1 + 1)
        = admm_iteration ext (i + (j + 1)) (stateAfterFrom ext i w (j + 1)) := rfl
      _ = admm_iteration ext ((i + 1) + j)
            (stateAfterFrom ext (i + 1) (admm_iteration ext i w) j) := by rw [ih, harg]
      _ = stateAfterFrom ext (i + 1) (admm_iteration ext i w) (j + 1) := rfl

theorem admm_loop_count_le (ext : ExtFns) :
    ∀ (fuel i : Nat) (w : Work), (admm_loop ext i fuel w).2.1 ≤ fuel := by
  intro fuel
  induction fuel with
  | zero => intro i w; simp [admm_loop]
  | succ fuel ih =>
    intro i w
    simp only [admm_loop]
    split
    · simp
    · simpa using ih (i + 1) (admm_iteration ext i w)

theorem admm_loop_trace (ext : ExtFns) :
    ∀ (fuel i : Nat) (w : Work),
      (admm_loop ext i fuel w).2.2 =
        List.flatten (List.replicate (admm_loop ext i fuel w).2.1 iterEvents) := by
  intro fuel
  induction fuel with
  | zero => intro i w; simp [admm_loop]
  | succ fuel ih =>
    intro i w
    simp only [admm_loop]
    split
    · simp
    · simp [List.replicate_succ, ih (i + 1) (admm_iteration ext i w)]

theorem admm_loop_state (ext : ExtFns) :
    ∀ (fuel i : Nat) (w : Work),
      (admm_loop ext i fuel w).1 =
        stateAfterFrom ext i w (admm_loop ext i fuel w).2.1 := by
  intro fuel
  induction fuel with
  | zero => intro i w; simp [admm_loop, stateAfterFrom]
  | succ fuel ih =>
    intro i w
    simp only [admm_loop]
    split
    · simp [stateAfterFrom]
    · simpa [stateAfterFrom_succ_left] using ih (i + 1) (admm_iteration ext i w)

theorem admm_loop_checks_false (ext : ExtFns) :
    ∀ (fuel i : Nat) (w : Work) (j : Nat), j + 1 < (admm_loop ext i fuel w).2.1 →
      ext.residuals_check (stateAfterFrom ext i w (j + 1)) = false := by
  intro fuel
  induction fuel with
  | zero => intro i w j h; simp [admm_loop] at h
  | succ fuel ih =>
    intro i w j h
    simp only [admm_loop] at h ⊢
    by_cases hc : ext.residuals_check (admm_iteration ext i w) = true
    · simp [hc] at h
    · simp only [hc, if_false, Bool.false_eq_true] at h
      cases j with
      | zero =>
        simpa [stateAfterFrom] using Bool.eq_false_iff.mpr hc
      | succ j =>
        rw [stateAfterFrom_succ_left]
        exact ih (i + 1) (admm_iteration ext i w) j (by omega)

theorem admm_loop_early_exit (ext : ExtFns) :
    ∀ (fuel i : Nat) (w : Work), (admm_loop ext i fuel w).2.1 < fuel →
      0 < (admm_loop ext i fuel w).2.1 ∧
      ext.residuals_check
        (stateAfterFrom ext i w (admm_loop ext i fuel w).2.1) = true := by
  intro fuel
  induction fuel with
  | zero => intro i w h; simp [admm_loop] at h
  | succ fuel ih =>
    intro i w h
    simp only [admm_loop] at h ⊢
    by_cases hc : ext.residuals_check (admm_iteration ext i w) = true
    · simp [hc, stateAfterFrom]
    · simp only [hc, if_false, Bool.false_eq_true] at h ⊢
      have hlt : (admm_loop ext (i + 1) fuel (admm_iteration ext i w)).2.1 < fuel := by
        omega
      rcases ih (i + 1) (admm_iteration ext i w) hlt with ⟨h0, hchk⟩
      refine ⟨by omega, ?_⟩
      simpa [stateAfterFrom_succ_left] using hchk

theorem solve_init_settings (w : Work) : (solve_init w).settings = w.settings := by
  unfold solve_init cold_start
  split <;> rfl

/-- C1: `osqp_solve` performs at most `max_iter` ADMM iterations, and every
iteration executes exactly this sequence in this order: copy `z` into
`z_prev`, assemble the right-hand side, solve the KKT system into `x`, update
`x`, project `z`, update `u`, update the info record, and check the
residual-based termination condition (the per-iteration trace is `iterEvents`
repeated once per performed iteration); all termination checks before the last
performed iteration failed, and if the loop stopped short of `max_iter` then
the check of its last iteration passed — the loop exits early exactly when the
termination check first passes. -/
theorem osqp_solve_admm_loop_structure (ext : ExtFns) (w : Work) :
    (osqp_solve ext w).iters ≤ w.settings.max_iter ∧
    (osqp_solve ext w).trace =
      List.flatten (List.replicate (osqp_solve ext w).iters iterEvents) ∧
    (∀ j, j + 1 < (osqp_solve ext w).iters →
      ext.residuals_check (stateAfterFrom ext 0 (solve_init w) (j + 1)) = false) ∧
    ((osqp_solve ext w).iters < w.settings.max_iter →
      0 < (osqp_solve ext w).iters ∧
      ext.residuals_check
        (stateAfterFrom ext 0 (solve_init w) (osqp_solve ext w).iters) = true) := by
  have hiters : (osqp_solve ext w).iters =
      (admm_loop ext 0 (solve_init w).settings.max_iter (solve_init w)).2.1 := rfl
  have htrace : (osqp_solve ext w).trace =
      (admm_loop ext 0 (solve_init w).settings.max_iter (solve_init w)).2.2 := rfl
  refine ⟨?_, ?_, ?_, ?_⟩
  · rw [hiters, ← solve_init_settings w]
    exact admm_loop_count_le ext _ 0 _
  · rw [htrace, hiters]
    exact admm_loop_trace ext _ 0 _
  · intro j hj
    exact admm_loop_checks_false ext _ 0 (solve_init w) j (by rw [← hiters]; exact hj)
  · intro h
    rw [hiters] at h ⊢
    rw [← solve_init_settings w] at h
    exact admm_loop_early_exit ext _ 0 (solve_init w) h

/-- C8: during `osqp_solve`, the polish step is invoked if and only if the
polishing setting is enabled and the status after the ADMM loop is `SOLVED`;
in particular it is never run when the status is `MAX_ITER_REACHED` or
`UNSOLVED`. -/
theorem osqp_solve_polish_iff (ext : ExtFns) (w : Work) :
    ((osqp_solve ext w).polished = true ↔
      (solve_after_loop ext w).settings.polishing = true ∧
      (solve_after_loop ext w).info.status_val = StatusVal.SOLVED) ∧
    ((solve_after_loop ext w).info.status_val = StatusVal.MAX_ITER_REACHED ∨
      (solve_after_loop ext w).info.status_val = StatusVal.UNSOLVED →
      (osqp_solve ext w).polished = false) := by
  have hpol : (osqp_solve ext w).polished =
      ((solve_after_loop ext w).settings.polishing &&
        decide ((solve_after_loop ext w).info.status_val = StatusVal.SOLVED)) := rfl
  constructor
  · rw [hpol]; simp
  · intro h; rw [hpol]
    rcases h with h | h <;> simp [h]

/-- C5: for every input on which data validation or settings validation fails,
`osqp_setup` returns the null workspace (before any allocation), and a
workspace is produced only when both validations pass. -/
theorem osqp_setup_validation (ext : ExtFns) (alloc_ok : Bool)
    (data : Data) (settings : Settings) :
    (osqp_setup ext alloc_ok data settings = SetupResult.null ↔
      (ext.validate_data data = true ∨ ext.validate_settings settings = true)) ∧
    (∀ w, osqp_setup ext alloc_ok data settings = SetupResult.ok w →
      ext.validate_data data = false ∧ ext.validate_settings settings = false) := by
  unfold osqp_setup
  by_cases h1 : ext.validate_data data = true
  · simp [h1]
  · by_cases h2 : ext.validate_settings settings = true
    · simp [h1, h2]
    · cases alloc_ok <;>
        simp [h1, h2, Bool.eq_false_iff, Bool.not_eq_true]

/-- C6 (refuting the claim on the code): when the workspace allocation fails
during `osqp_setup` after both validations passed, the source does not release
and return a null workspace — it only prints and then keeps constructing the
workspace through the null pointer (`work->data = ...`), modelled as `crash`. -/
theorem osqp_setup_alloc_fail_crashes (ext : ExtFns) (data : Data)
    (settings : Settings) (h1 : ext.validate_data data = false)
    (h2 : ext.validate_settings settings = false) :
    osqp_setup ext false data settings = SetupResult.crash ∧
    osqp_setup ext false data settings ≠ SetupResult.null := by
  unfold osqp_setup
  simp [h1, h2]

/-- C7: when the problem has `m = 0` constraints, `osqp_setup` forces the
polishing setting off in the workspace's copied settings, whatever the caller
requested. -/
theorem osqp_setup_m_zero_polishing (ext : ExtFns) (alloc_ok : Bool)
    (data : Data) (settings : Settings) (w : Work) (hm : data.m = 0)
    (hok : osqp_setup ext alloc_ok data settings = SetupResult.ok w) :
    w.settings.polishing = false := by
  unfold osqp_setup at hok
  split at hok
  · exact absurd hok (by simp)
  · split at hok
    · exact absurd hok (by simp)
    · split at hok
      · exact absurd hok (by simp)
      · rw [SetupResult.ok.injEq] at hok
        subst hok
        simp [hm, copy_settings]

/-- C10: after a successful `osqp_setup` (and before any `osqp_solve`), the
workspace's `info->status_val` is `UNSOLVED` with the matching status string,
and the iterates `x`, `z` (length `n+m`) and `u` (length `m`) are
zero-initialized. -/
theorem osqp_setup_initial_state (ext : ExtFns) (alloc_ok : Bool)
    (data : Data) (settings : Settings) (w : Work)
    (hok : osqp_setup ext alloc_ok data settings = SetupResult.ok w) :
    w.info.status_val = StatusVal.UNSOLVED ∧
    w.info.status = statusString StatusVal.UNSOLVED ∧
    w.x = List.replicate (data.n + data.m) (0 : ℚ) ∧
    w.z = List.replicate (data.n + data.m) (0 : ℚ) ∧
    w.u = List.replicate data.m (0 : ℚ) := by
  unfold osqp_setup at hok
  split at hok
  · exact absurd hok (by simp)
  · split at hok
    · exact absurd hok (by simp)
    · split at hok
      · exact absurd hok (by simp)
      · rw [SetupResult.ok.injEq] at hok
        subst hok
        simp [update_status_string]

theorem getD_take (v : Vec) (m i : Nat) (h : i < m) :
    (v.take m).getD i 0 = v.getD i 0 := by
  simp only [List.getD_eq_getElem?_getD, List.getElem?_take_of_lt h]

theorem getD_prea_vec_copy (v : Vec) (m i : Nat) (h : i < m) :
    (prea_vec_copy v m).getD i 0 = v.getD i 0 := getD_take v m i h

theorem getD_vec_ew_prod (a b : Vec) (i : Nat) (ha : i < a.length)
    (hb : i < b.length) :
    (vec_ew_prod a b).getD i 0 = a.getD i 0 * b.getD i 0 := by
  have hlen : i < (vec_ew_prod a b).length := by
    simp only [vec_ew_prod, List.length_zipWith, lt_min_iff]
    exact ⟨ha, hb⟩
  simp only [vec_ew_prod] at hlen ⊢
  rw [List.getD_eq_getElem?_getD, List.getD_eq_getElem?_getD,
    List.getD_eq_getElem?_getD, List.getElem?_eq_getElem hlen,
    List.getElem?_eq_getElem ha, List.getElem?_eq_getElem hb]
  simp [List.getElem_zipWith]

theorem check_lower_bound_ne_zero (lA uA : Vec) (m : Nat) :
    check_lower_bound lA uA m ≠ 0 ↔ ∃ i < m, uA.getD i 0 < lA.getD i 0 := by
  have hany : ((List.range m).any (fun i => decide (uA.getD i 0 < lA.getD i 0)) = true) ↔
      ∃ i < m, uA.getD i 0 < lA.getD i 0 := by
    simp [List.any_eq_true, List.mem_range]
  unfold check_lower_bound
  split
  · next h => exact iff_of_true one_ne_zero (hany.mp h)
  · next h => exact iff_of_false (fun h0 => h0 rfl) (fun hx => h (hany.mpr hx))

theorem check_lower_bound_eq_zero (lA uA : Vec) (m : Nat) :
    check_lower_bound lA uA m = 0 ↔ ∀ i < m, lA.getD i 0 ≤ uA.getD i 0 := by
  have hne := check_lower_bound_ne_zero lA uA m
  constructor
  · intro h i him
    by_contra hgt
    exact (hne.mpr ⟨i, him, not_le.mp hgt⟩) h
  · intro h
    by_contra hne0
    rcases hne.mp hne0 with ⟨i, him, hlt⟩
    exact absurd (h i him) (not_le.mpr hlt)

theorem check_upper_bound_ne_zero (lA uA : Vec) (m : Nat) :
    check_upper_bound lA uA m ≠ 0 ↔ ∃ i < m, uA.getD i 0 < lA.getD i 0 :=
  check_lower_bound_ne_zero lA uA m

theorem check_upper_bound_eq_zero (lA uA : Vec) (m : Nat) :
    check_upper_bound lA uA m = 0 ↔ ∀ i < m, lA.getD i 0 ≤ uA.getD i 0 :=
  check_lower_bound_eq_zero lA uA m

/-- Dissection of a non-crashing `osqp_update_lower_bound` call: what the
returned flag is computed from, what the new stored lower bound is, and that
every other workspace component is untouched. -/
theorem osqp_update_lower_bound_ret (gset : Settings) (w : Work) (v : Vec)
    (w' : Work) (flag : ℤ)
    (h : osqp_update_lower_bound gset w v = UpdResult.ret w' flag) :
    w'.data.uA = w.data.uA ∧ w'.data.m = w.data.m ∧
    flag = check_lower_bound w'.data.lA w'.data.uA w'.data.m ∧
    (gset.scaling = 0 → w'.data.lA = prea_vec_copy v w.data.m) ∧
    (∀ sc, gset.scaling ≠ 0 → w.scaling = some sc →
      w'.data.lA = vec_ew_prod sc.E (prea_vec_copy v w.data.m)) ∧
    w'.data.q = w.data.q ∧ w'.settings = w.settings ∧ w'.priv = w.priv ∧
    w'.scaling = w.scaling := by
  unfold osqp_update_lower_bound at h
  split at h
  · next hg =>
    cases hsc : w.scaling with
    | none => rw [hsc] at h; exact absurd h (by simp)
    | some sc =>
      rw [hsc] at h
      rw [UpdResult.ret.injEq] at h
      obtain ⟨hw, hf⟩ := h
      subst hw; subst hf
      refine ⟨rfl, rfl, rfl, ?_, ?_, rfl, rfl, rfl, rfl⟩
      · intro h0; exact absurd h0 hg
      · intro sc' _ hsc'
        cases hsc'
        rfl
  · next hg =>
    rw [UpdResult.ret.injEq] at h
    obtain ⟨hw, hf⟩ := h
    subst hw; subst hf
    refine ⟨rfl, rfl, rfl, fun _ => rfl, ?_, rfl, rfl, rfl, rfl⟩
    intro sc hg' _
    exact absurd (by simpa using hg) hg'

/-- Dissection of a non-crashing `osqp_update_upper_bound` call. -/
theorem osqp_update_upper_bound_ret (gset : Settings) (w : Work) (v : Vec)
    (w' : Work) (flag : ℤ)
    (h : osqp_update_upper_bound gset w v = UpdResult.ret w' flag) :
    w'.data.lA = w.data.lA ∧ w'.data.m = w.data.m ∧
    flag = check_upper_bound w'.data.lA w'.data.uA w'.data.m ∧
    (gset.scaling = 0 → w'.data.uA = prea_vec_copy v w.data.m) ∧
    (∀ sc, gset.scaling ≠ 0 → w.scaling = some sc →
      w'.data.uA = vec_ew_prod sc.E (prea_vec_copy v w.data.m)) ∧
    w'.data.q = w.data.q ∧ w'.settings = w.settings ∧ w'.priv = w.priv ∧
    w'.scaling = w.scaling := by
  unfold osqp_update_upper_bound at h
  split at h
  · next hg =>
    cases hsc : w.scaling with
    | none => rw [hsc] at h; exact absurd h (by simp)
    | some sc =>
      rw [hsc] at h
      rw [UpdResult.ret.injEq] at h
      obtain ⟨hw, hf⟩ := h
      subst hw; subst hf
      refine ⟨rfl, rfl, rfl, ?_, ?_, rfl, rfl, rfl, rfl⟩
      · intro h0; exact absurd h0 hg
      · intro sc' _ hsc'
        cases hsc'
        rfl
  · next hg =>
    rw [UpdResult.ret.injEq] at h
    obtain ⟨hw, hf⟩ := h
    subst hw; subst hf
    refine ⟨rfl, rfl, rfl, fun _ => rfl, ?_, rfl, rfl, rfl, rfl⟩
    intro sc hg' _
    exact absurd (by simpa using hg) hg'

/-- C2: for every workspace, `osqp_update_lower_bound` returns nonzero exactly
when some component `i` has `lA[i] > uA[i]` after the update (on the stored
vectors), and returns zero when the stored bounds satisfy `lA ≤ uA`
componentwise; `osqp_update_upper_bound` returns nonzero exactly when
`uA[i] < lA[i]` for some `i` and zero otherwise. -/
theorem osqp_update_bounds_flag (gset : Settings) (w : Work)
    (lA_new uA_new : Vec) :
    (∀ w' flag, osqp_update_lower_bound gset w lA_new = UpdResult.ret w' flag →
      ((flag ≠ 0 ↔ ∃ i < w'.data.m, w'.data.uA.getD i 0 < w'.data.lA.getD i 0) ∧
       (flag = 0 ↔ ∀ i < w'.data.m, w'.data.lA.getD i 0 ≤ w'.data.uA.getD i 0))) ∧
    (∀ w' flag, osqp_update_upper_bound gset w uA_new = UpdResult.ret w' flag →
      ((flag ≠ 0 ↔ ∃ i < w'.data.m, w'.data.uA.getD i 0 < w'.data.lA.getD i 0) ∧
       (flag = 0 ↔ ∀ i < w'.data.m, w'.data.lA.getD i 0 ≤ w'.data.uA.getD i 0))) := by
  constructor
  · intro w' flag h
    obtain ⟨-, -, hflag, -⟩ := osqp_update_lower_bound_ret gset w lA_new w' flag h
    rw [hflag]
    exact ⟨check_lower_bound_ne_zero _ _ _, check_lower_bound_eq_zero _ _ _⟩
  · intro w' flag h
    obtain ⟨-, -, hflag, -⟩ := osqp_update_upper_bound_ret gset w uA_new w' flag h
    rw [hflag]
    exact ⟨check_upper_bound_ne_zero _ _ _, check_upper_bound_eq_zero _ _ _⟩

/-- C4: whether or not the returned BoundsInconsistent flag is nonzero, the
(possibly `E`-scaled) new bound vector has already fully replaced the old one
in the workspace by the time `osqp_update_lower_bound` /
`osqp_update_upper_bound` returns — the update is attempted in place and is
not rolled back on failure — while the opposite bound is untouched. -/
theorem osqp_update_bounds_in_place (gset : Settings) (w : Work)
    (lA_new uA_new : Vec) :
    (∀ w' flag, osqp_update_lower_bound gset w lA_new = UpdResult.ret w' flag →
      flag ≠ 0 →
      ((gset.scaling = 0 → w'.data.lA = prea_vec_copy lA_new w.data.m) ∧
       (∀ sc, gset.scaling ≠ 0 → w.scaling = some sc →
          w'.data.lA = vec_ew_prod sc.E (prea_vec_copy lA_new w.data.m)) ∧
       w'.data.uA = w.data.uA)) ∧
    (∀ w' flag, osqp_update_upper_bound gset w uA_new = UpdResult.ret w' flag →
      flag ≠ 0 →
      ((gset.scaling = 0 → w'.data.uA = prea_vec_copy uA_new w.data.m) ∧
       (∀ sc, gset.scaling ≠ 0 → w.scaling = some sc →
          w'.data.uA = vec_ew_prod sc.E (prea_vec_copy uA_new w.data.m)) ∧
       w'.data.lA = w.data.lA)) := by
  constructor
  · intro w' flag h _
    obtain ⟨h1, -, -, h4, h5, -⟩ := osqp_update_lower_bound_ret gset w lA_new w' flag h
    exact ⟨h4, h5, h1⟩
  · intro w' flag h _
    obtain ⟨h1, -, -, h4, h5, -⟩ := osqp_update_upper_bound_ret gset w uA_new w' flag h
    exact ⟨h4, h5, h1⟩

/-- C9: with scaling active, the bound-consistency check of the update
functions runs on the scaled vectors (the new bound multiplied by `E`,
compared against the stored opposite bound carrying the same `E` scaling);
since every entry of `E` is strictly positive, the returned flag equals the
unscaled elementwise comparison of the new bound against the opposite bound —
the result is invariant under scaling. -/
theorem osqp_update_bounds_check_scaling_invariant (gset : Settings) (w : Work)
    (sc : ScalingS) (lA_new uA_new lA0 uA0 : Vec)
    (hg : gset.scaling ≠ 0) (hw : w.scaling = some sc)
    (hEpos : ∀ i < w.data.m, 0 < sc.E.getD i 0)
    (hElen : w.data.m ≤ sc.E.length)
    (hlAlen : w.data.m ≤ lA_new.length) (huAlen : w.data.m ≤ uA_new.length)
    (hlA0len : w.data.m ≤ lA0.length) (huA0len : w.data.m ≤ uA0.length)
    (hsuA : w.data.uA = vec_ew_prod sc.E uA0)
    (hslA : w.data.lA = vec_ew_prod sc.E lA0) :
    (∀ w' flag, osqp_update_lower_bound gset w lA_new = UpdResult.ret w' flag →
      (flag ≠ 0 ↔ ∃ i < w.data.m, uA0.getD i 0 < lA_new.getD i 0)) ∧
    (∀ w' flag, osqp_update_upper_bound gset w uA_new = UpdResult.ret w' flag →
      (flag ≠ 0 ↔ ∃ i < w.data.m, uA_new.getD i 0 < lA0.getD i 0)) := by
  have htakelen : ∀ v : Vec, w.data.m ≤ v.length →
      ∀ i, i < w.data.m → i < (v.take w.data.m).length := by
    intro v hv i hi
    simp only [List.length_take, lt_min_iff]
    exact ⟨hi, lt_of_lt_of_le hi hv⟩
  constructor
  · intro w' flag h
    obtain ⟨huA', hm, hflag, -, hlow, -⟩ :=
      osqp_update_lower_bound_ret gset w lA_new w' flag h
    rw [hflag, hm, huA', hlow sc hg hw, hsuA, check_lower_bound_ne_zero]
    refine exists_congr fun i => and_congr_right fun hi => ?_
    rw [getD_vec_ew_prod sc.E uA0 i (lt_of_lt_of_le hi hElen)
        (lt_of_lt_of_le hi huA0len),
      getD_vec_ew_prod sc.E (prea_vec_copy lA_new w.data.m) i
        (lt_of_lt_of_le hi hElen) (htakelen lA_new hlAlen i hi),
      getD_prea_vec_copy lA_new w.data.m i hi]
    exact mul_lt_mul_left (hEpos i hi)
  · intro w' flag h
    obtain ⟨hlA', hm, hflag, -, hupp, -⟩ :=
      osqp_update_upper_bound_ret gset w uA_new w' flag h
    rw [hflag, hm, hlA', hupp sc hg hw, hslA, check_upper_bound_ne_zero]
    refine exists_congr fun i => and_congr_right fun hi => ?_
    rw [getD_vec_ew_prod sc.E (prea_vec_copy uA_new w.data.m) i
        (lt_of_lt_of_le hi hElen) (htakelen uA_new huAlen i hi),
      getD_prea_vec_copy uA_new w.data.m i hi,
      getD_vec_ew_prod sc.E lA0 i (lt_of_lt_of_le hi hElen)
        (lt_of_lt_of_le hi hlA0len)]
    exact mul_lt_mul_left (hEpos i hi)

/-- Concrete settings whose own `scaling` is active; also used as a caller's
requested settings. -/
def settingsScaled : Settings :=
  { rho := 1, sigma := 1, alpha := 1, max_iter := 3, eps_abs := 1,
    eps_rel := 1, scaling := 1, polishing := true, warm_start := false,
    verbose := false }

/-- Concrete settings with `scaling = 0` (scaling disabled). -/
def settingsOff : Settings := { settingsScaled with scaling := 0 }

/-- Concrete scaling diagonals with `D = [2]` and `E = [1]`. -/
def scalingEx : ScalingS := { D := [2], Dinv := [2], E := [1], Einv := [1] }

/-- Concrete workspace with `n = 1`, `m = 1`, its own settings having scaling
active, and scaling diagonals present. -/
def workEx : Work :=
  { data := { n := 1, m := 1, P := [[2]], q := [5], A := [[1]], lA := [1], uA := [3] }
    x := [0, 0]
    z := [0, 0]
    u := [0]
    z_prev := [0, 0]
    dua_res_ws_n := [0]
    dua_res_ws_m := [0]
    settings := settingsScaled
    scaling := some scalingEx
    priv := { P := [[2]], A := [[1]], settings := settingsScaled, polish_flag := false }
    pol := { ind_lAct := [0], ind_uAct := [0], A2Ared := [0], x := [0], Ax := [0] }
    solution := { x := [0], lambda := [0] }
    info := { iter := 0, status_val := StatusVal.UNSOLVED, status := "Unsolved",
              obj_val := 0, pri_res := 0, dua_res := 0 } }

/-- A trivial concrete implementation of the external functions, used to
instantiate the universally-quantified theorems on concrete runs.  Its
`residuals_check` always fires and its `update_info` reports `SOLVED`. -/
def extId : ExtFns :=
  { validate_data := fun _ => false
    validate_settings := fun _ => false
    scale_data := fun _ d => (d, { D := [1], Dinv := [1], E := [1], Einv := [1] })
    init_priv := fun P A s pf => { P := P, A := A, settings := s, polish_flag := pf }
    compute_rhs := fun w => w.x
    solve_lin_sys := fun _ _ v => v
    update_x := fun w => w.x
    project_x := fun w => w.z
    update_u := fun w => w.u
    update_info := fun w _ => { w.info with status_val := StatusVal.SOLVED }
    residuals_check := fun _ => true
    polish := fun w => w
    store_solution := fun w => w.solution }

/-- Like `extId` but the data validator rejects every input. -/
def extRejects : ExtFns := { extId with validate_data := fun _ => true }

/-- Constraint-free concrete problem data (`m = 0`). -/
def data0 : Data := { n := 1, m := 0, P := [[2]], q := [5], A := [], lA := [], uA := [] }

/-- Extract the workspace from a successful setup (or a fallback). -/
def setupOkWork (r : SetupResult) (d : Work) : Work :=
  match r with
  | SetupResult.ok w => w
  | _ => d

/-- Extract the workspace from a non-crashing update (or a fallback). -/
def updRetWork (r : UpdResult) (d : Work) : Work :=
  match r with
  | UpdResult.ret w _ => w
  | _ => d

/-- Extract the returned flag from a non-crashing update (or `-1`). -/
def updRetFlag (r : UpdResult) : ℤ :=
  match r with
  | UpdResult.ret _ f => f
  | _ => -1

/-- C3 (refuting the claim on the code): `workEx`'s own settings have scaling
active and its scaling diagonals are present, yet when the free global
`settings->scaling` is zero, `osqp_update_lin_cost` stores `q_new` WITHOUT
re-applying the `D` scaling (and without touching anything else, returning 0):
the code reads the free global `settings`, not `work->settings`, so the
D scaling is not re-applied exactly when the workspace's scaling is active. -/
theorem osqp_update_lin_cost_reads_global :
    workEx.settings.scaling ≠ 0 ∧
    osqp_update_lin_cost settingsOff workEx [1] =
      UpdResult.ret
        { workEx with data := { workEx.data with q := prea_vec_copy [1] workEx.data.n } } 0 ∧
    prea_vec_copy [1] workEx.data.n ≠
      vec_ew_prod scalingEx.D (prea_vec_copy [1] workEx.data.n) := by
  refine ⟨by decide, rfl, ?_⟩
  simp only [workEx, prea_vec_copy, scalingEx, vec_ew_prod, List.take,
    List.zipWith, ne_eq, List.cons.injEq, and_true]
  norm_num

/-- Witness for C1 at a concrete run: with `extId` (whose termination check
always passes) and `workEx` (`max_iter = 3`), the loop exits early and its
last iteration's check passed. -/
theorem osqp_solve_admm_loop_structure_witness :
    (osqp_solve extId workEx).iters < workEx.settings.max_iter ∧
    extId.residuals_check
      (stateAfterFrom extId 0 (solve_init workEx) (osqp_solve extId workEx).iters) = true :=
  ⟨by decide, ((osqp_solve_admm_loop_structure extId workEx).2.2.2 (by decide)).2⟩

/-- Witness for C8 at a concrete run: polishing enabled and post-loop status
`SOLVED`, hence `polish` is invoked. -/
theorem osqp_solve_polish_iff_witness :
    (osqp_solve extId workEx).polished = true :=
  (osqp_solve_polish_iff extId workEx).1.mpr ⟨by decide, by decide⟩

/-- Witness for C5 at a concrete input: a rejecting data validator makes
`osqp_setup` return the null workspace. -/
theorem osqp_setup_validation_witness :
    osqp_setup extRejects true workEx.data settingsScaled = SetupResult.null :=
  (osqp_setup_validation extRejects true workEx.data settingsScaled).1.mpr (Or.inl rfl)

/-- Witness for C6 at a concrete input: with passing validators and a failed
workspace allocation, `osqp_setup` crashes rather than returning null. -/
theorem osqp_setup_alloc_fail_crashes_witness :
    osqp_setup extId false workEx.data settingsScaled = SetupResult.crash ∧
    osqp_setup extId false workEx.data settingsScaled ≠ SetupResult.null :=
  osqp_setup_alloc_fail_crashes extId workEx.data settingsScaled rfl rfl

/-- Witness for C7 at a concrete input: a successful setup on an `m = 0`
problem with `polishing` requested ends up with polishing off. -/
theorem osqp_setup_m_zero_polishing_witness :
    osqp_setup extId true data0 settingsScaled =
      SetupResult.ok (setupOkWork (osqp_setup extId true data0 settingsScaled) workEx) ∧
    (setupOkWork (osqp_setup extId true data0 settingsScaled) workEx).settings.polishing
      = false :=
  ⟨rfl, osqp_setup_m_zero_polishing extId true data0 settingsScaled
    (setupOkWork (osqp_setup extId true data0 settingsScaled) workEx) rfl rfl⟩

/-- Witness for C10 at a concrete input: a successful setup yields status
`UNSOLVED` with matching string and zero iterates. -/
theorem osqp_setup_initial_state_witness :
    (setupOkWork (osqp_setup extId true workEx.data settingsOff) workEx).info.status_val
        = StatusVal.UNSOLVED ∧
    (setupOkWork (osqp_setup extId true workEx.data settingsOff) workEx).info.status
        = statusString StatusVal.UNSOLVED ∧
    (setupOkWork (osqp_setup extId true workEx.data settingsOff) workEx).x
        = List.replicate (workEx.data.n + workEx.data.m) (0 : ℚ) ∧
    (setupOkWork (osqp_setup extId true workEx.data settingsOff) workEx).z
        = List.replicate (workEx.data.n + workEx.data.m) (0 : ℚ) ∧
    (setupOkWork (osqp_setup extId true workEx.data settingsOff) workEx).u
        = List.replicate workEx.data.m (0 : ℚ) :=
  osqp_setup_initial_state extId true workEx.data settingsOff
    (setupOkWork (osqp_setup extId true workEx.data settingsOff) workEx) rfl

/-- Witness for C2 at a concrete input: updating the lower bound to `[5]`
against the stored upper bound `[3]` (global scaling off) returns a nonzero
flag. -/
theorem osqp_update_bounds_flag_witness :
    updRetFlag (osqp_update_lower_bound settingsOff workEx [5]) ≠ 0 :=
  ((osqp_update_bounds_flag settingsOff workEx [5] [0]).1
      (updRetWork (osqp_update_lower_bound settingsOff workEx [5]) workEx)
      (updRetFlag (osqp_update_lower_bound settingsOff workEx [5]))
      rfl).1.mpr ⟨0, by decide, by decide⟩

/-- Witness for C4 at a concrete input: after the failing lower-bound update
the inconsistent new bound `[5]` is stored in full. -/
theorem osqp_update_bounds_in_place_witness :
    (updRetWork (osqp_update_lower_bound settingsOff workEx [5]) workEx).data.lA =
      prea_vec_copy [5] workEx.data.m :=
  (((osqp_update_bounds_in_place settingsOff workEx [5] [0]).1
      (updRetWork (osqp_update_lower_bound settingsOff workEx [5]) workEx)
      (updRetFlag (osqp_update_lower_bound settingsOff workEx [5]))
      rfl (by decide)).1) rfl

/-- Witness for C9 at a concrete input: with scaling active (`E = [1] > 0`,
stored bounds carrying the `E` scaling), the flag of the lower-bound update
to `[5]` agrees with the unscaled comparison `uA0 = [3] < [5]`. -/
theorem osqp_update_bounds_check_scaling_invariant_witness :
    updRetFlag (osqp_update_lower_bound settingsScaled workEx [5]) ≠ 0 :=
  ((osqp_update_bounds_check_scaling_invariant settingsScaled workEx scalingEx
      [5] [0] [1] [3] (by decide) rfl (by decide) (by decide) (by decide)
      (by decide) (by decide) (by decide)
      (by simp [workEx, scalingEx, vec_ew_prod])
      (by simp [workEx, scalingEx, vec_ew_prod])).1
      (updRetWork (osqp_update_lower_bound settingsScaled workEx [5]) workEx)
      (updRetFlag (osqp_update_lower_bound settingsScaled workEx [5]))
      rfl).mpr ⟨0, by decide, by decide⟩
